import Mathlib

/-!
Verification of the payment-integration layer (PIX gateway glue code):
webhook signature verification, the gateway client (`createPixDeposit`,
`getPixStatus`, `processPixInWebhook`), and the three route handlers
(create, status, webhook receiver), shallowly embedded in Lean.

JavaScript runtime aspects are modelled explicitly:
* JSON runtime values are the inductive `JsonVal`; a missing property is
  `Option.none` (JS `undefined`).
* JS truthiness and the `||` operator are `jsTruthy` / `jsOr` and friends.
* Property access on `null`/`undefined` throws, so it lives in `Except`.
* Byte strings are `List Nat` (each element a byte); `utf8Encode` is the
  UTF-8 encoding used by `Buffer.from`.
* SHA-256 and HMAC-SHA256 (Node's `crypto`) are implemented concretely so
  that signatures can be computed inside proofs.
-/

namespace Validado

/-! ## JavaScript value model -/

/-- A parsed JSON runtime value. JS `undefined` is represented by
`Option.none` at use sites, not by a constructor. -/
inductive JsonVal where
  | null
  | bool (b : Bool)
  | num (q : ℚ)
  | str (s : String)
  | obj (fields : List (String × JsonVal))
  | arr (elems : List JsonVal)
  deriving Repr, Inhabited

/-- JS truthiness of a possibly-undefined value: `undefined`, `null`,
`false`, `0` and `""` are falsy; objects and arrays are always truthy. -/
def jsTruthy : Option JsonVal → Bool
  | none => false
  | some .null => false
  | some (.bool b) => b
  | some (.num q) => !(q == 0)
  | some (.str s) => !(s == "")
  | some (.obj _) => true
  | some (.arr _) => true

/-- JS `a || b` on runtime values. -/
def jsOr (a b : Option JsonVal) : Option JsonVal :=
  if jsTruthy a then a else b

/-- JS `a || b` where `b` is known to be a definite value. -/
def jsOrD (a : Option JsonVal) (b : JsonVal) : JsonVal :=
  match jsOr a (some b) with
  | some v => v
  | none => b

/-- Property lookup on a value that is known not to be `null`/`undefined`
(total version): a non-object receiver yields `undefined`. -/
def jsObjLookup (v : JsonVal) (k : String) : Option JsonVal :=
  match v with
  | .obj fields => fields.lookup k
  | _ => none

/-- JS property access `recv[k]`: throws a `TypeError` when the receiver is
`null` or `undefined`, yields `undefined` on non-object receivers. -/
def jsGet (recv : Option JsonVal) (k : String) : Except String (Option JsonVal) :=
  match recv with
  | none => .error ("TypeError: Cannot read properties of undefined (reading " ++ k ++ ")")
  | some .null => .error ("TypeError: Cannot read properties of null (reading " ++ k ++ ")")
  | some v => .ok (jsObjLookup v k)

/-- JS truthiness of a string-or-absent value (e.g. `process.env` entries,
`headers.get` results): absent and `""` are falsy. -/
def jsTruthyStr : Option String → Bool
  | none => false
  | some s => !(s == "")

/-- JS `a || b` on a string-or-absent left operand and string right operand. -/
def jsOrStr (a : Option String) (b : String) : String :=
  match a with
  | none => b
  | some s => if s == "" then b else s

/-- JS `a || null` on a string-or-absent value: empty strings become null. -/
def jsOrNullStr (a : Option String) : Option String :=
  match a with
  | none => none
  | some s => if s == "" then none else some s

/-- JS `Math.round`: round half toward positive infinity. -/
def jsMathRound (q : ℚ) : ℤ := ⌊q + 1 / 2⌋

/-! ## Bytes, UTF-8 and hex -/

/-- UTF-8 encoding of a single character (what `Buffer.from` and
`JSON.stringify`-to-wire use). -/
def utf8EncodeChar (c : Char) : List Nat :=
  let n := c.toNat
  if n < 128 then [n]
  else if n < 2048 then [192 ||| (n >>> 6), 128 ||| (n &&& 63)]
  else if n < 65536 then
    [224 ||| (n >>> 12), 128 ||| ((n >>> 6) &&& 63), 128 ||| (n &&& 63)]
  else
    [240 ||| (n >>> 18), 128 ||| ((n >>> 12) &&& 63),
      128 ||| ((n >>> 6) &&& 63), 128 ||| (n &&& 63)]

/-- UTF-8 encoding of a character list. -/
def utf8EncodeList : List Char → List Nat
  | [] => []
  | c :: cs => utf8EncodeChar c ++ utf8EncodeList cs

/-- UTF-8 encoding of a string as a byte list. -/
def utf8Encode (s : String) : List Nat := utf8EncodeList s.data

/-- Lowercase hex digit for a value `< 16`. -/
def hexDigit (n : Nat) : Char :=
  if n < 10 then Char.ofNat (48 + n) else Char.ofNat (87 + n)

/-- Lowercase hex encoding of a byte list. -/
def bytesToHex (l : List Nat) : String :=
  String.mk (l.foldr (fun b acc => hexDigit (b / 16) :: hexDigit (b % 16) :: acc) [])

/-! ## SHA-256 and HMAC-SHA256 -/

/-- Addition modulo `2^32`. -/
def add32 (a b : Nat) : Nat := (a + b) % 4294967296

/-- Right rotation of a 32-bit word. -/
def rotr32 (n x : Nat) : Nat := ((x >>> n) ||| (x <<< (32 - n))) % 4294967296

/-- The SHA-256 round constants (decimal renderings of the FIPS 180-4
values). -/
def sha256K : List Nat :=
  [1116352408, 1899447441, 3049323471, 3921009573, 961987163, 1508970993,
   2453635748, 2870763221, 3624381080, 310598401, 607225278, 1426881987,
   1925078388, 2162078206, 2614888103, 3248222580, 3835390401, 4022224774,
   264347078, 604807628, 770255983, 1249150122, 1555081692, 1996064986,
   2554220882, 2821834349, 2952996808, 3210313671, 3336571891, 3584528711,
   113926993, 338241895, 666307205, 773529912, 1294757372, 1396182291,
   1695183700, 1986661051, 2177026350, 2456956037, 2730485921, 2820302411,
   3259730800, 3345764771, 3516065817, 3600352804, 4094571909, 275423344,
   430227734, 506948616, 659060556, 883997877, 958139571, 1322822218,
   1537002063, 1747873779, 1955562222, 2024104815, 2227730452, 2361852424,
   2428436474, 2756734187, 3204031479, 3329325298]

/-- The SHA-256 working state: eight 32-bit words. -/
structure Sha256State where
  a : Nat
  b : Nat
  c : Nat
  d : Nat
  e : Nat
  f : Nat
  g : Nat
  h : Nat
  deriving DecidableEq, Repr

/-- The SHA-256 initial hash value (decimal renderings of the FIPS 180-4
values). -/
def sha256Init : Sha256State :=
  ⟨1779033703, 3144134277, 1013904242, 2773480762,
   1359893119, 2600822924, 528734635, 1541459225⟩

/-- Big-endian bytes of a value, `n` bytes wide. -/
def beBytes (n v : Nat) : List Nat :=
  (List.range n).map (fun i => (v >>> (8 * (n - 1 - i))) % 256)

/-- Read a big-endian 32-bit word from the first four bytes of a list. -/
def be32 (l : List Nat) : Nat :=
  ((l.getD 0 0) <<< 24) + ((l.getD 1 0) <<< 16) + ((l.getD 2 0) <<< 8) + l.getD 3 0

/-- The SHA-256 message schedule: the sixteen block words extended to
sixty-four. -/
def sha256Schedule (block : List Nat) : List Nat :=
  let w0 := (List.range 16).map (fun i => be32 (block.drop (4 * i)))
  (List.range 48).foldl
    (fun acc t =>
      let x15 := acc.getD (t + 1) 0
      let x2 := acc.getD (t + 14) 0
      let s0 := (rotr32 7 x15) ^^^ (rotr32 18 x15) ^^^ (x15 >>> 3)
      let s1 := (rotr32 17 x2) ^^^ (rotr32 19 x2) ^^^ (x2 >>> 10)
      acc ++ [add32 (add32 (acc.getD t 0) s0) (add32 (acc.getD (t + 9) 0) s1)])
    w0

/-- One SHA-256 compression round. -/
def sha256Round (w : List Nat) (st : Sha256State) (i : Nat) : Sha256State :=
  let bigS1 := (rotr32 6 st.e) ^^^ (rotr32 11 st.e) ^^^ (rotr32 25 st.e)
  let ch := (st.e &&& st.f) ^^^ ((st.e ^^^ 4294967295) &&& st.g)
  let t1 := add32 st.h (add32 bigS1 (add32 ch (add32 (sha256K.getD i 0) (w.getD i 0))))
  let bigS0 := (rotr32 2 st.a) ^^^ (rotr32 13 st.a) ^^^ (rotr32 22 st.a)
  let maj := (st.a &&& st.b) ^^^ (st.a &&& st.c) ^^^ (st.b &&& st.c)
  let t2 := add32 bigS0 maj
  ⟨add32 t1 t2, st.a, st.b, st.c, add32 st.d t1, st.e, st.f, st.g⟩

/-- SHA-256 compression of one 64-byte block into the running state. -/
def sha256Compress (st : Sha256State) (block : List Nat) : Sha256State :=
  let w := sha256Schedule block
  let r := (List.range 64).foldl (sha256Round w) st
  ⟨add32 st.a r.a, add32 st.b r.b, add32 st.c r.c, add32 st.d r.d,
   add32 st.e r.e, add32 st.f r.f, add32 st.g r.g, add32 st.h r.h⟩

/-- SHA-256 padding: append `0x80`, zero bytes to 56 mod 64, then the
bit length as a 64-bit big-endian value. -/
def sha256Pad (msg : List Nat) : List Nat :=
  let L := msg.length
  let k := (56 + 64 - ((L + 1) % 64)) % 64
  msg ++ [128] ++ List.replicate k 0 ++ beBytes 8 (8 * L)

/-- The SHA-256 digest of a byte list, as 32 bytes. -/
def sha256 (msg : List Nat) : List Nat :=
  let padded := sha256Pad msg
  let blocks := (List.range (padded.length / 64)).map
    (fun i => (padded.drop (64 * i)).take 64)
  let st := blocks.foldl sha256Compress sha256Init
  [st.a, st.b, st.c, st.d, st.e, st.f, st.g, st.h].foldr
    (fun w acc => beBytes 4 w ++ acc) []

/-- HMAC-SHA256 over byte lists. -/
def hmacSha256 (key msg : List Nat) : List Nat :=
  let k0 := if key.length > 64 then sha256 key else key
  let k := k0 ++ List.replicate (64 - k0.length) 0
  sha256 ((k.map (fun b => b ^^^ 92)) ++ sha256 ((k.map (fun b => b ^^^ 54)) ++ msg))

/-- `crypto.createHmac("sha256", secret).update(payload).digest("hex")`:
lowercase hex HMAC-SHA256 of the UTF-8 bytes. -/
def hmacSha256Hex (secret payload : String) : String :=
  bytesToHex (hmacSha256 (utf8Encode secret) (utf8Encode payload))

/-! ## `lib/trexpay.ts` -/

/-- Node's `crypto.timingSafeEqual`: constant-time equality on equal-length
buffers; throws `ERR_CRYPTO_TIMING_SAFE_EQUAL_LENGTH` on a length mismatch. -/
def timingSafeEqual (a b : List Nat) : Except String Bool :=
  if a.length = b.length then .ok (a == b)
  else .error "ERR_CRYPTO_TIMING_SAFE_EQUAL_LENGTH"

/-- The body of `verifyWebhookSignature`'s `try` block: compute the expected
`"sha256="`-prefixed hex HMAC, compare byte lengths first, and only then call
`timingSafeEqual`. The payload argument is the payload's UTF-8 JSON
serialization (`JSON.stringify(payload)` in the source). -/
def verifyWebhookSignatureBody (payloadJson signature secret : String) :
    Except String Bool :=
  let expectedSignature := "sha256=" ++ hmacSha256Hex secret payloadJson
  let signatureBuffer := utf8Encode signature
  let expectedBuffer := utf8Encode expectedSignature
  if signatureBuffer.length ≠ expectedBuffer.length then .ok false
  else timingSafeEqual signatureBuffer expectedBuffer

/-- `verifyWebhookSignature`: the `try`/`catch` wrapper turning any thrown
error into `false`. -/
def verifyWebhookSignature (payloadJson signature secret : String) : Bool :=
  match verifyWebhookSignatureBody payloadJson signature secret with
  | .ok b => b
  | .error _ => false

/-- `formatDocument`: strip every non-digit (`document.replace(/\D/g, "")`). -/
def formatDocument (document : String) : String :=
  String.mk (document.data.filter Char.isDigit)

/-- `formatPhone`: strip non-digits, then add a `+55` country prefix unless
the digits already start with `55`. -/
def formatPhone (phone : String) : String :=
  let cleaned := String.mk (phone.data.filter Char.isDigit)
  if cleaned.startsWith "55" then "+" ++ cleaned
  else "+55" ++ cleaned

/-- The seven optional tracking fields as they arrive from the storefront
request (`undefined` when absent). -/
structure TrackingIn where
  src : Option String := none
  sck : Option String := none
  utm_source : Option String := none
  utm_campaign : Option String := none
  utm_medium : Option String := none
  utm_content : Option String := none
  utm_term : Option String := none
  deriving DecidableEq, Repr, Inhabited

/-- The outbound gateway request body (`TrexPayDepositRequest`). Optional
fields are `none` when the source's `delete`-undefined loop removes them;
the never-populated `split_email`/`split_percentage` fields stay `none`. -/
structure TrexPayDepositRequest where
  token : String
  secret : String
  postback : String
  amount : ℚ
  debtor_name : String
  email : String
  debtor_document_number : String
  phone : String
  method_pay : String
  src : Option String := none
  sck : Option String := none
  utm_source : Option String := none
  utm_campaign : Option String := none
  utm_medium : Option String := none
  utm_content : Option String := none
  utm_term : Option String := none
  split_email : Option String := none
  split_percentage : Option String := none
  deriving DecidableEq, Repr

/-- The result object of `createPixDeposit` (`TrexPayDepositResponse`).
Fields other than `success` hold arbitrary runtime JSON values extracted
from the gateway's response (`none` = `undefined`). -/
structure TrexPayDepositResponse where
  success : Bool
  idTransaction : Option JsonVal := none
  qrCode : Option JsonVal := none
  qrCodeBase64 : Option JsonVal := none
  pixKey : Option JsonVal := none
  expiresAt : Option JsonVal := none
  error : Option JsonVal := none
  message : Option JsonVal := none
  deriving Repr, Inhabited

/-- The parameters of `createPixDeposit`. -/
structure CreateDepositParams where
  amount : ℚ
  customerName : String
  customerEmail : String
  customerDocument : String
  customerPhone : String
  postbackUrl : String
  trackingParams : Option TrackingIn := none
  deriving DecidableEq, Repr

/-- The outcome of the one outbound `fetch` in `createPixDeposit`, as far as
the code observes it: a transport error, or an HTTP response with its `ok`
flag, status code, and the result of `JSON.parse` on its text (`none` when
the text is not valid JSON). -/
inductive FetchOutcome where
  | networkError (msg : String)
  | httpResponse (ok : Bool) (status : Nat) (body : Option JsonVal)
  deriving Repr, Inhabited

/-- The credentials-missing failure result of `createPixDeposit`. -/
def credentialsErrorResponse : TrexPayDepositResponse :=
  { success := false
    error := some (.str "INVALID_CREDENTIALS")
    message := some (.str "Credenciais da TrexPay não configuradas. Verifique as variáveis TREXPAY_TOKEN e TREXPAY_SECRET.") }

/-- The `catch`-clause failure result of `createPixDeposit`. -/
def networkErrorResponse (msg : String) : TrexPayDepositResponse :=
  { success := false
    error := some (.str "NETWORK_ERROR")
    message := some (.str ("Erro de conexão com a TrexPay: " ++ msg)) }

/-- `createPixDeposit`. The extra `Option TrexPayDepositRequest` component
records the outbound HTTP call: `none` means no `fetch` was performed. The
function is total — every failure is a returned result, never an exception;
the `Except` block is the scope of the source's `try`, whose `catch` maps a
thrown `TypeError` to the network-error result. -/
def createPixDeposit (token secret : Option String)
    (params : CreateDepositParams) (outcome : FetchOutcome) :
    TrexPayDepositResponse × Option TrexPayDepositRequest :=
  if !(jsTruthyStr token) || !(jsTruthyStr secret) then
    (credentialsErrorResponse, none)
  else
    let requestBody : TrexPayDepositRequest :=
      { token := token.getD ""
        secret := secret.getD ""
        postback := params.postbackUrl
        amount := params.amount
        debtor_name := params.customerName
        email := params.customerEmail
        debtor_document_number := formatDocument params.customerDocument
        phone := formatPhone params.customerPhone
        method_pay := "pix"
        src := params.trackingParams.bind (·.src)
        sck := params.trackingParams.bind (·.sck)
        utm_source := params.trackingParams.bind (·.utm_source)
        utm_campaign := params.trackingParams.bind (·.utm_campaign)
        utm_medium := params.trackingParams.bind (·.utm_medium)
        utm_content := params.trackingParams.bind (·.utm_content)
        utm_term := params.trackingParams.bind (·.utm_term) }
    match outcome with
    | .networkError msg => (networkErrorResponse msg, some requestBody)
    | .httpResponse ok status body =>
      match body with
      | none =>
        ({ success := false
           error := some (.str "PARSE_ERROR")
           message := some (.str "Resposta inválida da TrexPay") }, some requestBody)
      | some data =>
        let inner : Except String TrexPayDepositResponse := do
          if !ok then
            let e ← jsGet (some data) "error"
            let m ← jsGet (some data) "message"
            pure { success := false
                   error := some (jsOrD e (.str "API_ERROR"))
                   message := some (jsOrD m (jsOrD e (.str ("Erro HTTP " ++ toString status)))) }
          else
            let dd ← jsGet (some data) "data"
            let responseData := jsOr dd (some data)
            let t1 ← jsGet responseData "idTransaction"
            let t2 ← jsGet responseData "id_transaction"
            let t3 ← jsGet responseData "id"
            let t4 ← jsGet (some data) "idTransaction"
            let transactionId := jsOr (jsOr (jsOr t1 t2) t3) t4
            let q1 ← jsGet responseData "qrCode"
            let q2 ← jsGet responseData "qr_code"
            let q3 ← jsGet responseData "qrcode"
            let b1 ← jsGet responseData "qrCodeBase64"
            let b2 ← jsGet responseData "qr_code_base64"
            let b3 ← jsGet responseData "qrcodeBase64"
            let p1 ← jsGet responseData "pixKey"
            let p2 ← jsGet responseData "pix_key"
            let p3 ← jsGet responseData "copiaecola"
            let p4 ← jsGet responseData "copia_e_cola"
            let p5 ← jsGet responseData "emv"
            let e1 ← jsGet responseData "expiresAt"
            let e2 ← jsGet responseData "expires_at"
            let e3 ← jsGet responseData "expiration"
            pure { success := true
                   idTransaction := transactionId
                   qrCode := jsOr (jsOr q1 q2) q3
                   qrCodeBase64 := jsOr (jsOr b1 b2) b3
                   pixKey := jsOr (jsOr (jsOr (jsOr p1 p2) p3) p4) p5
                   expiresAt := jsOr (jsOr e1 e2) e3 }
        match inner with
        | .ok r => (r, some requestBody)
        | .error msg => (networkErrorResponse msg, some requestBody)

/-- The result object of `getPixStatus` (`TrexPayStatusResponse`); `status`
is the raw runtime value taken from the gateway's JSON on success. -/
structure TrexPayStatusResponse where
  success : Bool
  idTransaction : String
  status : Option JsonVal
  amount : Option JsonVal := none
  paid_at : Option JsonVal := none
  error : Option JsonVal := none
  deriving Repr, Inhabited

/-- `getPixStatus`. The `body` of an `httpResponse` outcome is the result of
`await response.json()`: `none` means that call threw (non-JSON body), which
the source's `catch` turns into the pending/network-error fallback. -/
def getPixStatus (idTransaction : String) (outcome : FetchOutcome) :
    TrexPayStatusResponse :=
  match outcome with
  | .networkError _ =>
    { success := false, idTransaction, status := some (.str "pending")
      error := some (.str "NETWORK_ERROR") }
  | .httpResponse ok _ body =>
    match body with
    | none =>
      { success := false, idTransaction, status := some (.str "pending")
        error := some (.str "NETWORK_ERROR") }
    | some data =>
      let inner : Except String TrexPayStatusResponse := do
        if !ok then
          let e ← jsGet (some data) "error"
          pure { success := false, idTransaction, status := some (.str "pending")
                 error := some (jsOrD e (.str "API_ERROR")) }
        else
          let st ← jsGet (some data) "status"
          let am ← jsGet (some data) "amount"
          let pa ← jsGet (some data) "paid_at"
          pure { success := true, idTransaction, status := st, amount := am
                 paid_at := pa }
      match inner with
      | .ok r => r
      | .error _ =>
        { success := false, idTransaction, status := some (.str "pending")
          error := some (.str "NETWORK_ERROR") }

/-- The typed shape of a well-formed webhook payload's `data.payer`. -/
structure WebhookPayer where
  name : String
  document : String
  deriving DecidableEq, Repr, Inhabited

/-- The typed shape of a well-formed webhook payload's `data` object. -/
structure WebhookData where
  idTransaction : String
  status : String
  amount : ℚ
  paid_at : Option String := none
  payer : Option WebhookPayer := none
  deriving DecidableEq, Repr, Inhabited

/-- A well-formed webhook body (`TrexPayWebhookPayload` as received after
`request.json()`): an event tag, the `data` object, and an optional
embedded `signature` field. -/
structure WebhookBody where
  event : String
  data : WebhookData
  signature : Option String := none
  deriving DecidableEq, Repr, Inhabited

/-- The projection returned by `processPixInWebhook`. -/
structure PixInData where
  transactionId : String
  status : String
  amount : ℚ
  paidAt : Option String := none
  payerName : Option String := none
  payerDocument : Option String := none
  deriving DecidableEq, Repr

/-- `processPixInWebhook`: pure field projection of a PIX-IN webhook. -/
def processPixInWebhook (payload : WebhookBody) : PixInData :=
  { transactionId := payload.data.idTransaction
    status := payload.data.status
    amount := payload.data.amount
    paidAt := payload.data.paid_at
    payerName := payload.data.payer.map (·.name)
    payerDocument := payload.data.payer.map (·.document) }

/-! ## Dates (`Date.prototype.toISOString`) -/

/-- Zero-pad a numeral to two digits. -/
def pad2 (n : Nat) : String := if n < 10 then "0" ++ toString n else toString n

/-- Zero-pad a numeral to three digits. -/
def pad3 (n : Nat) : String :=
  if n < 10 then "00" ++ toString n
  else if n < 100 then "0" ++ toString n else toString n

/-- Zero-pad a numeral to four digits. -/
def pad4 (n : Nat) : String :=
  if n < 10 then "000" ++ toString n
  else if n < 100 then "00" ++ toString n
  else if n < 1000 then "0" ++ toString n else toString n

/-- Civil date (year, month, day) from days since the Unix epoch. -/
def civilFromDays (z0 : Int) : Int × Nat × Nat :=
  let z := z0 + 719468
  let era := Int.fdiv z 146097
  let doe := (z - era * 146097).toNat
  let yoe := (doe - doe / 1460 + doe / 36524 - doe / 146096) / 365
  let doy := doe - (365 * yoe + yoe / 4 - yoe / 100)
  let mp := (5 * doy + 2) / 153
  let d := doy - (153 * mp + 2) / 5 + 1
  let m := if mp < 10 then mp + 3 else mp - 9
  let y := era * 400 + yoe + (if m ≤ 2 then 1 else 0)
  (y, m, d)

/-- `new Date(ms).toISOString()`: UTC ISO-8601 rendering of an epoch
timestamp in milliseconds. -/
def isoOfMs (ms : Int) : String :=
  let days := Int.fdiv ms 86400000
  let msod := (ms - days * 86400000).toNat
  let ymd := civilFromDays days
  pad4 ymd.1.toNat ++ "-" ++ pad2 ymd.2.1 ++ "-" ++ pad2 ymd.2.2 ++ "T" ++
    pad2 (msod / 3600000) ++ ":" ++ pad2 (msod % 3600000 / 60000) ++ ":" ++
    pad2 (msod % 60000 / 1000) ++ "." ++ pad3 (msod % 1000) ++ "Z"

/-! ## Attribution service and correlation store
(`lib/utmfy`, `lib/server-utm-store`)

These two modules are imported by the route handlers but their sources are
not part of the repository snapshot. Only their data shapes and call
boundaries matter to the handlers, so:

* the stored tracking snapshot and the attribution order are modelled from
  the spec's data model (`TrackingParameters`, `AttributionOrder`);
* `getUtmParams` is a `store : String → Option TrackingParams` function
  argument of the webhook handler (spec 4.1: `get` returns the snapshot or
  absent);
* `sendOrderToUtmfy`'s outcome is an `Except String Unit` argument (spec
  4.4: a fire-and-forget send that either completes or fails);
* `formatUtmfyDate` is a `fmtDate : Int → Option String` argument (its
  output format is irrelevant to every claim). -/

/-- Modelled from the spec: the stored `TrackingParameters` snapshot — seven
nullable string fields (`lib/server-utm-store` is not in the snapshot). -/
structure TrackingParams where
  src : Option String := none
  sck : Option String := none
  utm_source : Option String := none
  utm_campaign : Option String := none
  utm_medium : Option String := none
  utm_content : Option String := none
  utm_term : Option String := none
  deriving DecidableEq, Repr, Inhabited

/-- The all-null tracking snapshot the webhook handler substitutes when the
store has no entry. -/
def allNullTracking : TrackingParams := {}

/-- The `field || null` normalization both `saveUtmParams` call sites apply
to incoming tracking fields. -/
def normalizeTrackingOpt (tp : Option TrackingIn) : TrackingParams :=
  { src := jsOrNullStr (tp.bind (·.src))
    sck := jsOrNullStr (tp.bind (·.sck))
    utm_source := jsOrNullStr (tp.bind (·.utm_source))
    utm_campaign := jsOrNullStr (tp.bind (·.utm_campaign))
    utm_medium := jsOrNullStr (tp.bind (·.utm_medium))
    utm_content := jsOrNullStr (tp.bind (·.utm_content))
    utm_term := jsOrNullStr (tp.bind (·.utm_term)) }

/-- Modelled from the spec: the attribution order's customer identity. -/
structure UtmfyCustomer where
  name : String
  email : Option String := none
  phone : Option String := none
  document : Option String := none
  country : String
  deriving DecidableEq, Repr

/-- Modelled from the spec: an attribution order line item
(price in minor units). -/
structure UtmfyProduct where
  id : String
  name : String
  planId : Option String := none
  planName : Option String := none
  quantity : ℚ
  priceInCents : ℤ
  deriving DecidableEq, Repr

/-- Modelled from the spec: the attribution order's commission breakdown,
in minor units. -/
structure UtmfyCommission where
  totalPriceInCents : ℤ
  gatewayFeeInCents : ℤ
  userCommissionInCents : ℤ
  currency : String
  deriving DecidableEq, Repr

/-- Modelled from the spec: `UtmfyOrderRequest`, the outbound attribution
schema (`lib/utmfy` is not in the snapshot). `orderId` is a runtime JSON
value because the create handler forwards the gateway's (untyped)
transaction id there. -/
structure UtmfyOrderRequest where
  orderId : JsonVal
  platform : String
  paymentMethod : String
  status : String
  createdAt : Option String
  approvedDate : Option String
  refundedAt : Option String
  customer : UtmfyCustomer
  products : List UtmfyProduct
  trackingParameters : TrackingParams
  commission : UtmfyCommission
  deriving Repr

/-! ## `app/api/pix/create/route.ts` -/

/-- `generateOrderId`, with the time-based and random components (the
base-36 uppercase renderings of `Date.now()` and `Math.random()`) supplied
as arguments. -/
def generateOrderId (timestamp random : String) : String :=
  "PED-" ++ timestamp ++ "-" ++ random

/-- `toCents`: major currency units to minor, `Math.round(value * 100)`. -/
def toCents (value : ℚ) : ℤ := jsMathRound (value * 100)

/-- The environment variables the create route and gateway client read. -/
structure CreateEnv where
  trexpayToken : Option String := none
  trexpaySecret : Option String := none
  vercelUrl : Option String := none
  nextPublicSiteUrl : Option String := none
  deriving DecidableEq, Repr

/-- `getBaseUrl`: platform host, else configured public site URL, else
localhost. -/
def getBaseUrl (env : CreateEnv) : String :=
  if jsTruthyStr env.vercelUrl then "https://" ++ env.vercelUrl.getD ""
  else if jsTruthyStr env.nextPublicSiteUrl then env.nextPublicSiteUrl.getD ""
  else "http://localhost:3000"

/-- The create request's `customer` object (fields may be absent). -/
structure CreateCustomer where
  name : Option String := none
  email : Option String := none
  cpf : Option String := none
  phone : Option String := none
  deriving DecidableEq, Repr, Inhabited

/-- A create request line item. -/
structure CreateItem where
  id : Option String := none
  name : String := ""
  price : ℚ := 0
  quantity : ℚ := 1
  deriving DecidableEq, Repr, Inhabited

/-- The create request body (`address` and `shipping` are never read). -/
structure CreateBody where
  customer : Option CreateCustomer := none
  items : Option (List CreateItem) := none
  total : Option ℚ := none
  trackingParams : Option TrackingIn := none
  deriving DecidableEq, Repr, Inhabited

/-- The create route's HTTP response: 400 with an error message, 500 with
error detail, or 200 with `success:true` and the PIX payload. -/
inductive CreateResponse where
  | badRequest (error : String)
  | serverError (error : JsonVal) (details : Option JsonVal)
  | ok (orderId : String) (transactionId : JsonVal) (qrcode : JsonVal)
      (qrCodeBase64 : JsonVal) (expiresAt : JsonVal)
  deriving Repr, Inhabited

/-- Everything observable about one run of the create handler: the HTTP
response, the correlation-store writes (key, snapshot), the attribution
orders sent, and the outbound gateway call if one was made. -/
structure CreateResult where
  response : CreateResponse
  saves : List (JsonVal × TrackingParams)
  forwards : List UtmfyOrderRequest
  fetchCall : Option TrexPayDepositRequest
  deriving Repr

/-- The `createPixDeposit` argument object the create route builds. -/
def depositParamsOf (env : CreateEnv) (customer : CreateCustomer) (total : ℚ)
    (trackingParams : Option TrackingIn) : CreateDepositParams :=
  { amount := total
    customerName := customer.name.getD ""
    customerEmail := customer.email.getD ""
    customerDocument := customer.cpf.getD ""
    customerPhone := customer.phone.getD ""
    postbackUrl := getBaseUrl env ++ "/api/webhook/trexpay"
    trackingParams := trackingParams }

/-- The gateway-client result the create route observes. -/
def depositResultOf (env : CreateEnv) (customer : CreateCustomer) (total : ℚ)
    (trackingParams : Option TrackingIn) (fetchOutcome : FetchOutcome) :
    TrexPayDepositResponse × Option TrexPayDepositRequest :=
  createPixDeposit env.trexpayToken env.trexpaySecret
    (depositParamsOf env customer total trackingParams) fetchOutcome

/-- The create route handler (`POST`). `fmtDate` is `formatUtmfyDate`,
`timestamp`/`random`/`now` the ambient time and randomness, `fetchOutcome`
the gateway call's outcome and `utmfyOutcome` the attribution send's; the
source catches and swallows the latter, so it cannot influence the result. -/
def createPOST (fmtDate : Int → Option String) (env : CreateEnv)
    (timestamp random : String) (now : Int) (fetchOutcome : FetchOutcome)
    (utmfyOutcome : Except String Unit) (body : CreateBody) : CreateResult :=
  match body.customer with
  | none => ⟨.badRequest "Dados do cliente incompletos", [], [], none⟩
  | some customer =>
    if !(jsTruthyStr customer.name) || !(jsTruthyStr customer.email) ||
        !(jsTruthyStr customer.cpf) || !(jsTruthyStr customer.phone) then
      ⟨.badRequest "Dados do cliente incompletos", [], [], none⟩
    else match body.items with
    | none => ⟨.badRequest "Nenhum item no pedido", [], [], none⟩
    | some items =>
      if items.length = 0 then ⟨.badRequest "Nenhum item no pedido", [], [], none⟩
      else match body.total with
      | none => ⟨.badRequest "Valor total inválido", [], [], none⟩
      | some total =>
        if total ≤ 0 then ⟨.badRequest "Valor total inválido", [], [], none⟩
        else
          let orderId := generateOrderId timestamp random
          let amountInCents := toCents total
          let saves1 : List (JsonVal × TrackingParams) :=
            match body.trackingParams with
            | some tp => [(JsonVal.str orderId, normalizeTrackingOpt (some tp))]
            | none => []
          let depositCall := depositResultOf env customer total body.trackingParams fetchOutcome
          let trexPayResult := depositCall.1
          if !trexPayResult.success then
            ⟨.serverError (jsOrD trexPayResult.message (.str "Erro ao gerar PIX"))
                trexPayResult.error,
              saves1, [], depositCall.2⟩
          else
            let transactionId := jsOrD trexPayResult.idTransaction (.str orderId)
            let saves2 := saves1 ++
              (match body.trackingParams with
               | some tp =>
                 if jsTruthy trexPayResult.idTransaction then
                   [(jsOrD trexPayResult.idTransaction .null, normalizeTrackingOpt (some tp))]
                 else []
               | none => [])
            let order : UtmfyOrderRequest :=
              { orderId := transactionId
                platform := "papelaria-site"
                paymentMethod := "pix"
                status := "waiting_payment"
                createdAt := some (jsOrStr (fmtDate now) "")
                approvedDate := none
                refundedAt := none
                customer :=
                  { name := customer.name.getD ""
                    email := customer.email
                    phone := jsOrNullStr (customer.phone.map formatDocument)
                    document := jsOrNullStr (customer.cpf.map formatDocument)
                    country := "BR" }
                products := items.map (fun item =>
                  { id := jsOrStr item.id "product"
                    name := item.name
                    quantity := item.quantity
                    priceInCents := toCents item.price })
                trackingParameters := normalizeTrackingOpt body.trackingParams
                commission :=
                  { totalPriceInCents := amountInCents
                    gatewayFeeInCents := 0
                    userCommissionInCents := amountInCents
                    currency := "BRL" } }
            ⟨.ok orderId transactionId
                (jsOrD (jsOr trexPayResult.pixKey trexPayResult.qrCode) (.str ""))
                (jsOrD trexPayResult.qrCodeBase64 (.str ""))
                (jsOrD trexPayResult.expiresAt (.str (isoOfMs (now + 30 * 60 * 1000)))),
              saves2, [order], depositCall.2⟩

/-! ## `app/api/pix/status/route.ts` -/

/-- JS strict equality `v === s` between a runtime value and a string. -/
def statusStrEq (v : Option JsonVal) (s : String) : Bool :=
  match v with
  | some (.str t) => t == s
  | _ => false

/-- The status route's HTTP response: 400 when the query parameter is
missing, otherwise 200 with `success:true`. -/
inductive StatusRouteResponse where
  | badRequest400
  | ok (transactionId : String) (status : String) (amount : Option JsonVal)
      (paidAt : Option JsonVal)
  deriving Repr, Inhabited

/-- The status route handler (`GET`): maps the gateway status onto the fixed
four-value vocabulary, defaulting to `"pending"`. -/
def statusGET (transactionId : Option String) (outcome : FetchOutcome) :
    StatusRouteResponse :=
  if !(jsTruthyStr transactionId) then .badRequest400
  else
    let tid := transactionId.getD ""
    let result := getPixStatus tid outcome
    let mappedStatus :=
      if statusStrEq result.status "paid" then "paid"
      else if statusStrEq result.status "expired" then "expired"
      else if statusStrEq result.status "cancelled" then "cancelled"
      else "pending"
    .ok tid mappedStatus result.amount result.paid_at

/-! ## The webhook receiver (`POST`, unnamed source file) -/

/-- A webhook request: the three possible signature headers plus the parsed
body. -/
structure WebhookRequest where
  headerTrexpaySignature : Option String := none
  headerXSignature : Option String := none
  headerSignature : Option String := none
  body : WebhookBody
  deriving DecidableEq, Repr

/-- The webhook route's HTTP response on a well-formed body: 200 with
`success:true`, or 401 on an invalid signature. (The 500 branch fires only
when the body is not JSON, which is outside this typed model.) -/
inductive WebhookResponse where
  | ok200
  | unauthorized401
  deriving DecidableEq, Repr

/-- Everything observable about one run of the webhook handler: the HTTP
response, the attribution orders sent, and whether `verifyWebhookSignature`
was invoked at all. -/
structure WebhookResult where
  response : WebhookResponse
  forwards : List UtmfyOrderRequest
  verifyInvoked : Bool
  deriving Repr

/-- The header part of the signature selection:
`x-trexpay-signature || x-signature || signature || ""`. -/
def webhookHeaderSignature (req : WebhookRequest) : String :=
  jsOrStr req.headerTrexpaySignature
    (jsOrStr req.headerXSignature (jsOrStr req.headerSignature ""))

/-- The full signature selection, falling back to the body's embedded
`signature` field: `signature || body.signature || ""`. -/
def webhookSignatureToVerify (req : WebhookRequest) : String :=
  let signature := webhookHeaderSignature req
  if signature == "" then jsOrStr req.body.signature "" else signature

/-- The webhook route handler (`POST`). `stringify` is the runtime's
`JSON.stringify` on the received body object, `dateParse` is
`new Date(string).getTime()`, `store` is the correlation store's
`getUtmParams`, and `utmfyOutcome` the attribution send's outcome — caught
and swallowed by the source, so it cannot influence the result. -/
def webhookPOST (stringify : WebhookBody → String) (fmtDate : Int → Option String)
    (dateParse : String → Int) (secret : Option String)
    (store : String → Option TrackingParams) (now : Int)
    (utmfyOutcome : Except String Unit) (req : WebhookRequest) : WebhookResult :=
  let signatureToVerify := webhookSignatureToVerify req
  let verifying := jsTruthyStr secret && !(signatureToVerify == "")
  let isValid := verifyWebhookSignature (stringify req.body) signatureToVerify (secret.getD "")
  if verifying && !isValid then ⟨.unauthorized401, [], true⟩
  else
    let payload := req.body
    let forwards : List UtmfyOrderRequest :=
      if payload.event == "pix.received" then
        let pixData := processPixInWebhook payload
        if pixData.status == "paid" then
          let storedUtmParams := store pixData.transactionId
          [{ orderId := .str pixData.transactionId
             platform := "papelaria-site"
             paymentMethod := "pix"
             status := "paid"
             createdAt := fmtDate now
             approvedDate := fmtDate
               (match pixData.paidAt with
                | some s => dateParse s
                | none => now)
             refundedAt := none
             customer :=
               { name := jsOrStr pixData.payerName "Cliente"
                 email := none
                 phone := none
                 document := jsOrNullStr pixData.payerDocument
                 country := "BR" }
             products := [{ id := "pix-payment"
                            name := "Pagamento PIX"
                            quantity := 1
                            priceInCents := jsMathRound (pixData.amount * 100) }]
             trackingParameters := storedUtmParams.getD allNullTracking
             commission :=
               { totalPriceInCents := jsMathRound (pixData.amount * 100)
                 gatewayFeeInCents := 0
                 userCommissionInCents := jsMathRound (pixData.amount * 100)
                 currency := "BRL" } }]
        else []
      else []
    ⟨.ok200, forwards, verifying⟩

/-! ## Supporting lemmas -/

theorem charToNat_injective {a b : Char} (h : a.toNat = b.toNat) : a = b := by
  apply Char.ext
  unfold Char.toNat at h
  exact UInt32.ext (by exact_mod_cast h)

theorem string_data_inj {s t : String} (h : s.data = t.data) : s = t := by
  cases s; cases t; simp_all

/-- On ASCII characters, UTF-8 encoding is the single code-point byte. -/
theorem utf8EncodeChar_ascii {c : Char} (h : c.toNat < 128) :
    utf8EncodeChar c = [c.toNat] := by
  unfold utf8EncodeChar
  simp [h]

/-- On ASCII character lists, UTF-8 encoding is `map Char.toNat`. -/
theorem utf8EncodeList_ascii : ∀ (l : List Char), (∀ c ∈ l, c.toNat < 128) →
    utf8EncodeList l = l.map Char.toNat
  | [], _ => rfl
  | c :: cs, h => by
    have hc : c.toNat < 128 := h c (List.mem_cons_self c cs)
    have hcs : ∀ x ∈ cs, x.toNat < 128 := fun x hx => h x (List.mem_cons_of_mem c hx)
    simp [utf8EncodeList, utf8EncodeChar_ascii hc, utf8EncodeList_ascii cs hcs]

/-- UTF-8 encoding is injective on ASCII strings. -/
theorem utf8Encode_ascii_inj {s t : String}
    (hs : ∀ c ∈ s.data, c.toNat < 128) (ht : ∀ c ∈ t.data, c.toNat < 128)
    (h : utf8Encode s = utf8Encode t) : s = t := by
  apply string_data_inj
  rw [utf8Encode, utf8Encode, utf8EncodeList_ascii s.data hs,
    utf8EncodeList_ascii t.data ht] at h
  exact List.map_injective_iff.mpr (fun a b => charToNat_injective) h

theorem hexDigit_ascii {n : Nat} (h : n < 16) : (hexDigit n).toNat < 128 := by
  interval_cases n <;> decide

/-- Hex encodings of byte lists contain only ASCII characters. -/
theorem bytesToHex_ascii : ∀ (l : List Nat), (∀ b ∈ l, b < 256) →
    ∀ c ∈ (bytesToHex l).data, c.toNat < 128 := by
  intro l hl
  have : ∀ (l : List Nat), (∀ b ∈ l, b < 256) →
      ∀ c ∈ l.foldr (fun b acc => hexDigit (b / 16) :: hexDigit (b % 16) :: acc) [],
        c.toNat < 128 := by
    intro l
    induction l with
    | nil => intro _ c hc; exact absurd hc (List.not_mem_nil c)
    | cons b bs ih =>
      intro hmem c hc
      have hb : b < 256 := hmem b (List.mem_cons_self b bs)
      rcases List.mem_cons.mp hc with rfl | hc
      · exact hexDigit_ascii (Nat.div_lt_of_lt_mul (by omega))
      rcases List.mem_cons.mp hc with rfl | hc
      · exact hexDigit_ascii (Nat.mod_lt b (by omega))
      · exact ih (fun x hx => hmem x (List.mem_cons_of_mem b hx)) c hc
  exact this l hl

theorem beBytes_lt : ∀ {n v : Nat} {b : Nat}, b ∈ beBytes n v → b < 256 := by
  intro n v b hb
  simp only [beBytes, List.mem_map] at hb
  obtain ⟨i, _, rfl⟩ := hb
  exact Nat.mod_lt _ (by omega)

/-- SHA-256 digests consist of bytes. -/
theorem sha256_bytes_lt {msg : List Nat} : ∀ b ∈ sha256 msg, b < 256 := by
  have key : ∀ (ws : List Nat) (b : Nat),
      b ∈ ws.foldr (fun w acc => beBytes 4 w ++ acc) [] → b < 256 := by
    intro ws
    induction ws with
    | nil => intro b hb; exact absurd hb (List.not_mem_nil b)
    | cons w rest ih =>
      intro b hb
      rcases List.mem_append.mp hb with h | h
      · exact beBytes_lt h
      · exact ih b h
  intro b hb
  simp only [sha256] at hb
  exact key _ b hb

/-- HMAC-SHA256 digests consist of bytes. -/
theorem hmacSha256_bytes_lt {key msg : List Nat} : ∀ b ∈ hmacSha256 key msg, b < 256 := by
  intro b hb
  simp only [hmacSha256] at hb
  exact sha256_bytes_lt b hb

/-- The expected signature string `"sha256=" ++ hex` is pure ASCII. -/
theorem expectedSignature_ascii (secret payload : String) :
    ∀ c ∈ ("sha256=" ++ hmacSha256Hex secret payload).data, c.toNat < 128 := by
  intro c hc
  rw [String.data_append] at hc
  rcases List.mem_append.mp hc with h | h
  · have lit : ∀ c ∈ ("sha256=" : String).data, c.toNat < 128 := by decide
    exact lit c h
  · exact bytesToHex_ascii _ (fun b hb => hmacSha256_bytes_lt b hb) c h

/-- `verifyWebhookSignature` is byte equality between the supplied signature
and the expected one: the length guard only short-circuits cases where the
equality is false anyway, and `timingSafeEqual` never throws there. -/
theorem verifyWebhookSignature_eq_beq (payloadJson signature secret : String) :
    verifyWebhookSignature payloadJson signature secret =
      (utf8Encode signature == utf8Encode ("sha256=" ++ hmacSha256Hex secret payloadJson)) := by
  unfold verifyWebhookSignature verifyWebhookSignatureBody timingSafeEqual
  by_cases h : (utf8Encode signature).length =
      (utf8Encode ("sha256=" ++ hmacSha256Hex secret payloadJson)).length
  · simp [h]
  · simp only [h, if_pos, if_neg, ne_eq, not_true_eq_false, not_false_eq_true, ite_true, ite_false]
    by_cases hb : (utf8Encode signature ==
        utf8Encode ("sha256=" ++ hmacSha256Hex secret payloadJson)) = true
    · exact absurd (congrArg List.length (eq_of_beq hb)) h
    · simp [Bool.not_eq_true] at hb
      simp [hb]

/-- Property access on a value other than `null`/`undefined` never throws. -/
theorem jsGet_ne_null {data : JsonVal} (h : data ≠ JsonVal.null) (k : String) :
    jsGet (some data) k = .ok (jsObjLookup data k) := by
  cases data <;> simp [jsGet, jsObjLookup] at h ⊢

/-! ## Claims -/

/-- C1: `verifyWebhookSignature` accepts exactly the `"sha256="`-prefixed
lowercase hex HMAC-SHA256 of the payload's UTF-8 JSON serialization keyed by
the secret, and rejects every signature produced from a payload whose
serialization differs — whenever the two serializations' HMACs differ (as
the claim's single-bit-mutation example illustrates; HMAC collision
freedom itself is a cryptographic assumption, not a program property). -/
theorem C1_webhook_signature_verification :
    ∀ (payloadJson secret : String),
      verifyWebhookSignature payloadJson
        ("sha256=" ++ hmacSha256Hex secret payloadJson) secret = true ∧
      ∀ otherJson : String,
        hmacSha256Hex secret otherJson ≠ hmacSha256Hex secret payloadJson →
        verifyWebhookSignature payloadJson
          ("sha256=" ++ hmacSha256Hex secret otherJson) secret = false := by
  intro p k
  constructor
  · rw [verifyWebhookSignature_eq_beq]
    exact beq_self_eq_true _
  · intro o hne
    rw [verifyWebhookSignature_eq_beq]
    by_cases hb : (utf8Encode ("sha256=" ++ hmacSha256Hex k o) ==
        utf8Encode ("sha256=" ++ hmacSha256Hex k p)) = true
    · exfalso
      have heq := utf8Encode_ascii_inj (expectedSignature_ascii k o)
        (expectedSignature_ascii k p) (eq_of_beq hb)
      have hdata := congrArg String.data heq
      rw [String.data_append, String.data_append] at hdata
      exact hne (string_data_inj (List.append_cancel_left hdata))
    · exact Bool.eq_false_iff.mpr hb

set_option maxRecDepth 40000 in
/-- Witness for C1 at a concrete payload, secret, and mutated payload. -/
theorem C1_webhook_signature_verification_witness :
    hmacSha256Hex "k" "abd" ≠ hmacSha256Hex "k" "abc" ∧
    verifyWebhookSignature "abc" ("sha256=" ++ hmacSha256Hex "k" "abc") "k" = true ∧
    verifyWebhookSignature "abc" ("sha256=" ++ hmacSha256Hex "k" "abd") "k" = false :=
  have hne : hmacSha256Hex "k" "abd" ≠ hmacSha256Hex "k" "abc" := by decide
  ⟨hne, (C1_webhook_signature_verification "abc" "k").1,
    (C1_webhook_signature_verification "abc" "k").2 "abd" hne⟩

/-- C2: on a byte-length mismatch between the supplied signature and the
expected one, `verifyWebhookSignature` returns `false`, and the length
guard fires before `timingSafeEqual` can throw (`.ok false`, not
`.error`); moreover the `try` body never throws on any input, so the
function always returns a `Bool`. -/
theorem C2_length_mismatch_returns_false :
    ∀ (payloadJson signature secret : String),
      ((utf8Encode signature).length ≠
          (utf8Encode ("sha256=" ++ hmacSha256Hex secret payloadJson)).length →
        verifyWebhookSignature payloadJson signature secret = false ∧
        verifyWebhookSignatureBody payloadJson signature secret = .ok false) ∧
      ∃ b : Bool, verifyWebhookSignatureBody payloadJson signature secret = .ok b := by
  intro p s k
  constructor
  · intro hlen
    unfold verifyWebhookSignature verifyWebhookSignatureBody
    simp [hlen]
  · unfold verifyWebhookSignatureBody timingSafeEqual
    by_cases h : (utf8Encode s).length =
        (utf8Encode ("sha256=" ++ hmacSha256Hex k p)).length
    · exact ⟨utf8Encode s == utf8Encode ("sha256=" ++ hmacSha256Hex k p), by simp [h]⟩
    · exact ⟨false, by simp [h]⟩

set_option maxRecDepth 40000 in
/-- Witness for C2 at a concrete three-character signature (the expected
signature is 71 bytes long). -/
theorem C2_length_mismatch_returns_false_witness :
    (utf8Encode "bad").length ≠
      (utf8Encode ("sha256=" ++ hmacSha256Hex "k" "abc")).length ∧
    verifyWebhookSignature "abc" "bad" "k" = false ∧
    verifyWebhookSignatureBody "abc" "bad" "k" = .ok false ∧
    ∃ b : Bool, verifyWebhookSignatureBody "abc" "bad" "k" = .ok b :=
  have hlen : (utf8Encode "bad").length ≠
      (utf8Encode ("sha256=" ++ hmacSha256Hex "k" "abc")).length := by decide
  have h := C2_length_mismatch_returns_false "abc" "bad" "k"
  ⟨hlen, (h.1 hlen).1, (h.1 hlen).2, h.2⟩

/-- C5 (amended): `createPixDeposit` is a total function (never raises);
with a missing credential it returns the credentials-error result and makes
no outbound call; a non-JSON body yields the parse-error result; a non-2xx
response whose JSON body is not `null` yields a failure carrying the
gateway's `error`/`message` when present and the generic API-error
otherwise; and a transport failure yields the network-error result. (The
claim's unqualified non-2xx clause fails when the body is JSON `null`: see
the counterexample.) -/
theorem C5_createPixDeposit_failure_categories :
    ∀ (token secret : Option String) (params : CreateDepositParams),
      (∀ outcome, (jsTruthyStr token = false ∨ jsTruthyStr secret = false) →
        createPixDeposit token secret params outcome = (credentialsErrorResponse, none)) ∧
      (jsTruthyStr token = true → jsTruthyStr secret = true →
        (∀ ok status,
          (createPixDeposit token secret params (.httpResponse ok status none)).1 =
            { success := false
              error := some (.str "PARSE_ERROR")
              message := some (.str "Resposta inválida da TrexPay") }) ∧
        (∀ status (data : JsonVal), data ≠ JsonVal.null →
          (createPixDeposit token secret params (.httpResponse false status (some data))).1 =
            { success := false
              error := some (jsOrD (jsObjLookup data "error") (.str "API_ERROR"))
              message := some (jsOrD (jsObjLookup data "message")
                (jsOrD (jsObjLookup data "error") (.str ("Erro HTTP " ++ toString status)))) }) ∧
        (∀ msg, (createPixDeposit token secret params (.networkError msg)).1 =
          networkErrorResponse msg)) := by
  intro token secret params
  refine ⟨?_, ?_⟩
  · intro outcome h
    unfold createPixDeposit
    rcases h with h | h <;> simp [h]
  · intro ht hs
    refine ⟨?_, ?_, ?_⟩
    · intro ok status
      unfold createPixDeposit
      simp [ht, hs]
    · intro status data hdata
      unfold createPixDeposit
      simp [ht, hs, jsGet_ne_null hdata, Bind.bind, Except.bind, Pure.pure, Except.pure]
    · intro msg
      unfold createPixDeposit
      simp [ht, hs]

/-- Witness for C5 at concrete credentials, parameters, and outcomes. -/
theorem C5_createPixDeposit_failure_categories_witness :
    (jsTruthyStr (none : Option String) = false ∨ jsTruthyStr (some "s") = false) ∧
    createPixDeposit none (some "s")
      { amount := 10, customerName := "N", customerEmail := "E",
        customerDocument := "D", customerPhone := "P", postbackUrl := "U" }
      (.networkError "down") = (credentialsErrorResponse, none) ∧
    (createPixDeposit (some "t") (some "s")
      { amount := 10, customerName := "N", customerEmail := "E",
        customerDocument := "D", customerPhone := "P", postbackUrl := "U" }
      (.networkError "down")).1 = networkErrorResponse "down" :=
  have hmiss : (jsTruthyStr (none : Option String) = false ∨ jsTruthyStr (some "s") = false) :=
    Or.inl rfl
  ⟨hmiss,
    (C5_createPixDeposit_failure_categories none (some "s") _).1 _ hmiss,
    ((C5_createPixDeposit_failure_categories (some "t") (some "s") _).2 rfl rfl).2.2 "down"⟩

/-- C5 counterexample: on a non-2xx response whose body is the JSON value
`null`, `data.error` throws a `TypeError`, so the failure result carries
the `NETWORK_ERROR` category — not a gateway code and not the generic
`API_ERROR` the claim requires for every non-2xx response. -/
theorem C5_counterexample_null_body :
    (createPixDeposit (some "t") (some "s")
      { amount := 10, customerName := "N", customerEmail := "E",
        customerDocument := "D", customerPhone := "P", postbackUrl := "U" }
      (.httpResponse false 400 (some JsonVal.null))).1.error =
        some (.str "NETWORK_ERROR") ∧
    "NETWORK_ERROR" ≠ "API_ERROR" ∧
    jsObjLookup JsonVal.null "error" = none :=
  ⟨rfl, by decide, rfl⟩

/-- JS strict equality of a runtime value against a string literal holds
exactly on that string value. -/
theorem statusStrEq_eq_true_iff (v : Option JsonVal) (s : String) :
    statusStrEq v s = true ↔ v = some (.str s) := by
  cases v with
  | none => simp [statusStrEq]
  | some jv => cases jv <;> simp [statusStrEq, beq_iff_eq]

/-- C6: whenever the status request carries a (truthy) `transactionId`, the
response is the 200 `success:true` shape for every gateway outcome —
transport failure included — and the reported status is always one of
`pending`, `paid`, `expired`, `cancelled`; the mapping is fully
characterized: each of the three recognized gateway statuses maps to
itself, and every other gateway status value — unknown strings, non-string
values, or an unset field — maps to `"pending"`. -/
theorem C6_status_endpoint_vocabulary :
    ∀ (transactionId : Option String) (outcome : FetchOutcome),
      jsTruthyStr transactionId = true →
      ∃ s am pa, statusGET transactionId outcome = .ok (transactionId.getD "") s am pa ∧
        (s = "pending" ∨ s = "paid" ∨ s = "expired" ∨ s = "cancelled") ∧
        ((getPixStatus (transactionId.getD "") outcome).status = some (.str "paid") →
          s = "paid") ∧
        ((getPixStatus (transactionId.getD "") outcome).status = some (.str "expired") →
          s = "expired") ∧
        ((getPixStatus (transactionId.getD "") outcome).status = some (.str "cancelled") →
          s = "cancelled") ∧
        ((getPixStatus (transactionId.getD "") outcome).status ≠ some (.str "paid") →
          (getPixStatus (transactionId.getD "") outcome).status ≠ some (.str "expired") →
          (getPixStatus (transactionId.getD "") outcome).status ≠ some (.str "cancelled") →
          s = "pending") := by
  intro tid outcome h
  unfold statusGET
  simp only [h, Bool.not_true, Bool.false_eq_true, if_false]
  by_cases h1 : statusStrEq (getPixStatus (tid.getD "") outcome).status "paid" = true
  · have hv := (statusStrEq_eq_true_iff _ _).mp h1
    refine ⟨"paid", _, _, by rw [if_pos h1], Or.inr (Or.inl rfl), fun _ => rfl, ?_, ?_, ?_⟩
    · intro hx
      rw [hv] at hx
      simp at hx
    · intro hx
      rw [hv] at hx
      simp at hx
    · intro hx _ _
      exact absurd hv hx
  · by_cases h2 : statusStrEq (getPixStatus (tid.getD "") outcome).status "expired" = true
    · have hv := (statusStrEq_eq_true_iff _ _).mp h2
      refine ⟨"expired", _, _, by rw [if_neg h1, if_pos h2], Or.inr (Or.inr (Or.inl rfl)),
        ?_, fun _ => rfl, ?_, ?_⟩
      · intro hx
        rw [hv] at hx
        simp at hx
      · intro hx
        rw [hv] at hx
        simp at hx
      · intro _ hx _
        exact absurd hv hx
    · by_cases h3 : statusStrEq (getPixStatus (tid.getD "") outcome).status "cancelled" = true
      · have hv := (statusStrEq_eq_true_iff _ _).mp h3
        refine ⟨"cancelled", _, _, by rw [if_neg h1, if_neg h2, if_pos h3],
          Or.inr (Or.inr (Or.inr rfl)), ?_, ?_, fun _ => rfl, ?_⟩
        · intro hx
          rw [hv] at hx
          simp at hx
        · intro hx
          rw [hv] at hx
          simp at hx
        · intro _ _ hx
          exact absurd hv hx
      · refine ⟨"pending", _, _, by rw [if_neg h1, if_neg h2, if_neg h3], Or.inl rfl,
          ?_, ?_, ?_, fun _ _ _ => rfl⟩
        · intro hx
          exact absurd ((statusStrEq_eq_true_iff _ _).mpr hx) h1
        · intro hx
          exact absurd ((statusStrEq_eq_true_iff _ _).mpr hx) h2
        · intro hx
          exact absurd ((statusStrEq_eq_true_iff _ _).mpr hx) h3

/-- Witness for C6: a concrete query whose gateway reports the unknown
status `"approved"` is answered with the 200 shape and status
`"pending"`. -/
theorem C6_status_endpoint_vocabulary_witness :
    jsTruthyStr (some "TX-1") = true ∧
    (getPixStatus "TX-1"
        (.httpResponse true 200 (some (.obj [("status", JsonVal.str "approved")])))).status
      = some (.str "approved") ∧
    ∃ s am pa,
      statusGET (some "TX-1")
          (.httpResponse true 200 (some (.obj [("status", JsonVal.str "approved")])))
        = .ok "TX-1" s am pa ∧
      (s = "pending" ∨ s = "paid" ∨ s = "expired" ∨ s = "cancelled") ∧
      s = "pending" := by
  obtain ⟨s, am, pa, heq, hmem, _, _, _, hunk⟩ :=
    C6_status_endpoint_vocabulary (some "TX-1")
      (.httpResponse true 200 (some (.obj [("status", JsonVal.str "approved")]))) rfl
  refine ⟨rfl, rfl, s, am, pa, heq, hmem, hunk ?_ ?_ ?_⟩
  · intro hx
    have hx2 : (some (JsonVal.str "approved") : Option JsonVal) = some (.str "paid") := hx
    simp at hx2
  · intro hx
    have hx2 : (some (JsonVal.str "approved") : Option JsonVal) = some (.str "expired") := hx
    simp at hx2
  · intro hx
    have hx2 : (some (JsonVal.str "approved") : Option JsonVal) = some (.str "cancelled") := hx
    simp at hx2

/-- Flattening step for the JS `||` chains on strings. -/
theorem jsOrStr_flatten (a : Option String) (x t : String) :
    (if (jsOrStr a x == "") = true then t else jsOrStr a x) =
      jsOrStr a (if (x == "") = true then t else x) := by
  cases a with
  | none => simp [jsOrStr]
  | some s =>
    by_cases h : (s == "") = true
    · simp [jsOrStr, h]
    · simp [jsOrStr, h]

/-- The webhook handler's `verifyInvoked` flag equals the source's
`secret && signatureToVerify` guard. -/
theorem webhookPOST_verifyInvoked (stringify : WebhookBody → String)
    (fmtDate : Int → Option String) (dateParse : String → Int)
    (secret : Option String) (store : String → Option TrackingParams)
    (now : Int) (utmfyOutcome : Except String Unit) (req : WebhookRequest) :
    (webhookPOST stringify fmtDate dateParse secret store now utmfyOutcome req).verifyInvoked =
      (jsTruthyStr secret && !(webhookSignatureToVerify req == "")) := by
  simp only [webhookPOST]
  split
  · rename_i h
    exact ((Bool.and_eq_true _ _).mp h).1.symm
  · rfl

/-- C3 (amended): the webhook receiver selects the signature from the three
headers in priority order, then the body's embedded `signature` field; with
a configured secret and a supplied signature, a failed verification yields
HTTP 401 with no attribution forward; and verification is skipped (with the
request processed normally, HTTP 200) exactly when the secret is not
configured **or** no signature is supplied — not only when neither is
present. -/
theorem C3_webhook_signature_selection :
    ∀ (stringify : WebhookBody → String) (fmtDate : Int → Option String)
      (dateParse : String → Int) (secret : Option String)
      (store : String → Option TrackingParams) (now : Int)
      (utmfyOutcome : Except String Unit) (req : WebhookRequest),
      webhookSignatureToVerify req =
        jsOrStr req.headerTrexpaySignature (jsOrStr req.headerXSignature
          (jsOrStr req.headerSignature (jsOrStr req.body.signature ""))) ∧
      (jsTruthyStr secret = true → webhookSignatureToVerify req ≠ "" →
        verifyWebhookSignature (stringify req.body) (webhookSignatureToVerify req)
            (secret.getD "") = false →
        (webhookPOST stringify fmtDate dateParse secret store now utmfyOutcome req).response
            = .unauthorized401 ∧
        (webhookPOST stringify fmtDate dateParse secret store now utmfyOutcome req).forwards
            = []) ∧
      ((webhookPOST stringify fmtDate dateParse secret store now utmfyOutcome req).verifyInvoked
          = false ↔
        (jsTruthyStr secret = false ∨ webhookSignatureToVerify req = "")) ∧
      ((webhookPOST stringify fmtDate dateParse secret store now utmfyOutcome req).verifyInvoked
          = false →
        (webhookPOST stringify fmtDate dateParse secret store now utmfyOutcome req).response
            = .ok200) := by
  intro stringify fmtDate dateParse secret store now utmfyOutcome req
  refine ⟨?_, ?_, ?_, ?_⟩
  · unfold webhookSignatureToVerify webhookHeaderSignature
    rw [jsOrStr_flatten, jsOrStr_flatten, jsOrStr_flatten]
    simp
  · intro hsec hne hver
    have hb : (webhookSignatureToVerify req == "") = false := beq_eq_false_iff_ne.mpr hne
    constructor <;> simp [webhookPOST, hsec, hb, hver]
  · rw [webhookPOST_verifyInvoked]
    constructor
    · intro h
      by_cases h1 : jsTruthyStr secret = true
      · rw [h1, Bool.true_and, Bool.not_eq_false'] at h
        exact Or.inr (eq_of_beq h)
      · exact Or.inl (Bool.eq_false_iff.mpr h1)
    · intro h
      rcases h with h | h
      · simp [h]
      · simp [h]
  · intro h
    rw [webhookPOST_verifyInvoked] at h
    simp [webhookPOST, h]

set_option maxRecDepth 40000 in
/-- Witness for C3: a concrete request whose header signature is wrong for
the secret is rejected with 401 and no forward. -/
theorem C3_webhook_signature_selection_witness :
    verifyWebhookSignature "abc" "bad" "k" = false ∧
    (webhookPOST (fun _ => "abc") (fun _ => none) (fun _ => 0) (some "k")
      (fun _ => none) 0 (.ok ())
      { headerTrexpaySignature := some "bad"
        body := { event := "pix.received"
                  data := { idTransaction := "TX1", status := "paid", amount := 10 } } }).response
        = .unauthorized401 ∧
    (webhookPOST (fun _ => "abc") (fun _ => none) (fun _ => 0) (some "k")
      (fun _ => none) 0 (.ok ())
      { headerTrexpaySignature := some "bad"
        body := { event := "pix.received"
                  data := { idTransaction := "TX1", status := "paid", amount := 10 } } }).forwards
        = [] :=
  have hver : verifyWebhookSignature "abc" "bad" "k" = false := by decide
  have h := (C3_webhook_signature_selection (fun _ => "abc") (fun _ => none) (fun _ => 0)
    (some "k") (fun _ => none) 0 (.ok ())
    { headerTrexpaySignature := some "bad"
      body := { event := "pix.received"
                data := { idTransaction := "TX1", status := "paid", amount := 10 } } }).2.1
    rfl (by decide) hver
  ⟨hver, h.1, h.2⟩

/-- C3 counterexample: with a secret configured but no signature supplied
anywhere, verification is skipped and the request is processed with 200 —
refuting the claim that verification is skipped exactly when **neither**
the secret nor a signature is present. -/
theorem C3_counterexample_secret_without_signature :
    jsTruthyStr (some "topsecret") = true ∧
    (webhookPOST (fun _ => "payload") (fun _ => none) (fun _ => 0) (some "topsecret")
      (fun _ => none) 0 (.ok ())
      { body := { event := "other.event"
                  data := { idTransaction := "TX1", status := "created", amount := 5 } } }).verifyInvoked
        = false ∧
    (webhookPOST (fun _ => "payload") (fun _ => none) (fun _ => 0) (some "topsecret")
      (fun _ => none) 0 (.ok ())
      { body := { event := "other.event"
                  data := { idTransaction := "TX1", status := "created", amount := 5 } } }).response
        = .ok200 :=
  ⟨rfl, rfl, rfl⟩

/-- C4: on every webhook request that is not rejected for signature
reasons, the response is 200 `success:true`; the attribution forwarder is
invoked exactly once, with lifecycle status `"paid"`, precisely when the
event is `"pix.received"` and the payload's status is `"paid"`; for every
other event or status no forward happens. -/
theorem C4_webhook_event_dispatch :
    ∀ (stringify : WebhookBody → String) (fmtDate : Int → Option String)
      (dateParse : String → Int) (secret : Option String)
      (store : String → Option TrackingParams) (now : Int)
      (utmfyOutcome : Except String Unit) (req : WebhookRequest),
      (webhookPOST stringify fmtDate dateParse secret store now utmfyOutcome req).response
          ≠ .unauthorized401 →
      (webhookPOST stringify fmtDate dateParse secret store now utmfyOutcome req).response
          = .ok200 ∧
      (req.body.event = "pix.received" → req.body.data.status = "paid" →
        ∃ o, (webhookPOST stringify fmtDate dateParse secret store now utmfyOutcome req).forwards
            = [o] ∧ o.status = "paid") ∧
      (¬(req.body.event = "pix.received" ∧ req.body.data.status = "paid") →
        (webhookPOST stringify fmtDate dateParse secret store now utmfyOutcome req).forwards
            = []) := by
  intro stringify fmtDate dateParse secret store now utmfyOutcome req
  simp only [webhookPOST]
  split
  · intro h
    exact absurd rfl h
  · intro _
    refine ⟨rfl, ?_, ?_⟩
    · intro he hs
      simp only [processPixInWebhook, he, hs]
      simp only [beq_self_eq_true, if_pos]
      exact ⟨_, rfl, rfl⟩
    · intro hn
      by_cases he : (req.body.event == "pix.received") = true
      · have he' := eq_of_beq he
        by_cases hs : (req.body.data.status == "paid") = true
        · exact absurd ⟨he', eq_of_beq hs⟩ hn
        · simp [processPixInWebhook, he, hs]
      · simp [he]

/-- Witness for C4: a concrete unsigned `pix.received`/`paid` webhook is
forwarded exactly once with status `"paid"` and answered 200. -/
theorem C4_webhook_event_dispatch_witness :
    (webhookPOST (fun _ => "") (fun _ => none) (fun _ => 0) none
      (fun _ => none) 0 (.ok ())
      { body := { event := "pix.received"
                  data := { idTransaction := "TX1", status := "paid", amount := 10 } } }).response
        = .ok200 ∧
    ∃ o, (webhookPOST (fun _ => "") (fun _ => none) (fun _ => 0) none
      (fun _ => none) 0 (.ok ())
      { body := { event := "pix.received"
                  data := { idTransaction := "TX1", status := "paid", amount := 10 } } }).forwards
        = [o] ∧ o.status = "paid" :=
  have h := C4_webhook_event_dispatch (fun _ => "") (fun _ => none) (fun _ => 0) none
    (fun _ => none) 0 (.ok ())
    { body := { event := "pix.received"
                data := { idTransaction := "TX1", status := "paid", amount := 10 } } }
    (by decide)
  ⟨h.1, h.2.1 rfl rfl⟩

/-- JS `a || b` falls through to `b` when `a` is falsy. -/
theorem jsOrD_falsy {a : Option JsonVal} (h : jsTruthy a = false) (b : JsonVal) :
    jsOrD a b = b := by
  simp [jsOrD, jsOr, h]

/-- Locally generated order ids are never empty. -/
theorem generateOrderId_ne_empty (timestamp random : String) :
    generateOrderId timestamp random ≠ "" := by
  intro h
  have hl := congrArg String.length h
  rw [generateOrderId, String.length_append, String.length_append,
    String.length_append] at hl
  have h4 : ("PED-" : String).length = 4 := rfl
  have h1 : ("-" : String).length = 1 := rfl
  have h0 : ("" : String).length = 0 := rfl
  rw [h4, h1, h0] at hl
  omega

/-- Case analysis of the create handler: either it stops before the success
return (no attribution forward, and the response is never the 200 shape),
or the request passed validation, the gateway call succeeded, and the
response and the single attribution forward have the success-branch shape. -/
theorem createPOST_branches (fmtDate : Int → Option String) (env : CreateEnv)
    (timestamp random : String) (now : Int) (fetchOutcome : FetchOutcome)
    (utmfyOutcome : Except String Unit) (body : CreateBody) :
    ((createPOST fmtDate env timestamp random now fetchOutcome utmfyOutcome body).forwards = [] ∧
      ∀ oid tid q qb ex,
        (createPOST fmtDate env timestamp random now fetchOutcome utmfyOutcome body).response
          ≠ .ok oid tid q qb ex) ∨
    (∃ customer items total,
      body.customer = some customer ∧ body.items = some items ∧ body.total = some total ∧
      (depositResultOf env customer total body.trackingParams fetchOutcome).1.success = true ∧
      (createPOST fmtDate env timestamp random now fetchOutcome utmfyOutcome body).response
        = .ok (generateOrderId timestamp random)
          (jsOrD (depositResultOf env customer total body.trackingParams fetchOutcome).1.idTransaction
            (.str (generateOrderId timestamp random)))
          (jsOrD (jsOr (depositResultOf env customer total body.trackingParams fetchOutcome).1.pixKey
              (depositResultOf env customer total body.trackingParams fetchOutcome).1.qrCode)
            (.str ""))
          (jsOrD (depositResultOf env customer total body.trackingParams fetchOutcome).1.qrCodeBase64
            (.str ""))
          (jsOrD (depositResultOf env customer total body.trackingParams fetchOutcome).1.expiresAt
            (.str (isoOfMs (now + 30 * 60 * 1000)))) ∧
      ∃ o, (createPOST fmtDate env timestamp random now fetchOutcome utmfyOutcome body).forwards
          = [o] ∧
        o.status = "waiting_payment" ∧
        o.commission.totalPriceInCents = toCents total ∧
        o.commission.gatewayFeeInCents = 0 ∧
        o.commission.userCommissionInCents = toCents total ∧
        o.products = items.map (fun item =>
          ({ id := jsOrStr item.id "product", name := item.name,
             quantity := item.quantity, priceInCents := toCents item.price } : UtmfyProduct))) := by
  cases hcust : body.customer with
  | none =>
    refine Or.inl ⟨?_, ?_⟩
    · simp [createPOST, hcust]
    · intro oid tid q qb ex
      simp [createPOST, hcust]
  | some customer =>
    cases hval : (!jsTruthyStr customer.name || !jsTruthyStr customer.email ||
        !jsTruthyStr customer.cpf || !jsTruthyStr customer.phone) with
    | true =>
      refine Or.inl ⟨?_, ?_⟩
      · simp [createPOST, hcust, hval]
      · intro oid tid q qb ex
        simp [createPOST, hcust, hval]
    | false =>
      cases hitems : body.items with
      | none =>
        refine Or.inl ⟨?_, ?_⟩
        · simp [createPOST, hcust, hval, hitems]
        · intro oid tid q qb ex
          simp [createPOST, hcust, hval, hitems]
      | some items =>
        by_cases hlen : items.length = 0
        · refine Or.inl ⟨?_, ?_⟩
          · simp [createPOST, hcust, hval, hitems, hlen]
          · intro oid tid q qb ex
            simp [createPOST, hcust, hval, hitems, hlen]
        · cases htotal : body.total with
          | none =>
            refine Or.inl ⟨?_, ?_⟩
            · simp [createPOST, hcust, hval, hitems, hlen, htotal]
            · intro oid tid q qb ex
              simp [createPOST, hcust, hval, hitems, hlen, htotal]
          | some total =>
            by_cases hpos : total ≤ 0
            · refine Or.inl ⟨?_, ?_⟩
              · simp [createPOST, hcust, hval, hitems, hlen, htotal, hpos]
              · intro oid tid q qb ex
                simp [createPOST, hcust, hval, hitems, hlen, htotal, hpos]
            · cases hsucc : (depositResultOf env customer total body.trackingParams fetchOutcome).1.success with
              | false =>
                refine Or.inl ⟨?_, ?_⟩
                · simp [createPOST, hcust, hval, hitems, hlen, htotal, hpos, hsucc]
                · intro oid tid q qb ex
                  simp [createPOST, hcust, hval, hitems, hlen, htotal, hpos, hsucc]
              | true =>
                refine Or.inr ⟨customer, items, total, rfl, rfl, rfl, hsucc, ?_, ?_⟩
                · simp [createPOST, hcust, hval, hitems, hlen, htotal, hpos, hsucc]
                · have hfor : (createPOST fmtDate env timestamp random now fetchOutcome utmfyOutcome body).forwards =
                      [{ orderId := jsOrD (depositResultOf env customer total body.trackingParams fetchOutcome).1.idTransaction
                            (.str (generateOrderId timestamp random))
                         platform := "papelaria-site"
                         paymentMethod := "pix"
                         status := "waiting_payment"
                         createdAt := some (jsOrStr (fmtDate now) "")
                         approvedDate := none
                         refundedAt := none
                         customer := { name := customer.name.getD ""
                                       email := customer.email
                                       phone := jsOrNullStr (customer.phone.map formatDocument)
                                       document := jsOrNullStr (customer.cpf.map formatDocument)
                                       country := "BR" }
                         products := items.map (fun item =>
                           { id := jsOrStr item.id "product", name := item.name,
                             quantity := item.quantity, priceInCents := toCents item.price })
                         trackingParameters := normalizeTrackingOpt body.trackingParams
                         commission := { totalPriceInCents := toCents total
                                         gatewayFeeInCents := 0
                                         userCommissionInCents := toCents total
                                         currency := "BRL" } }] := by
                    simp [createPOST, hcust, hval, hitems, hlen, htotal, hpos, hsucc]
                  exact ⟨_, hfor, rfl, rfl, rfl, rfl, rfl⟩

/-- C7: the attribution send's outcome never changes the caller's HTTP
response: the create handler's response is identical whether the send fails
or succeeds (and whenever a send happened at all, the response is the 200
PIX payload with the locally generated order id), and likewise the webhook
handler's response is outcome-independent and 200 whenever a send
happened. -/
theorem C7_attribution_failure_nonfatal :
    ∀ (fmtDate : Int → Option String) (env : CreateEnv) (timestamp random : String)
      (now : Int) (fetchOutcome : FetchOutcome) (body : CreateBody)
      (stringify : WebhookBody → String) (dateParse : String → Int)
      (secret : Option String) (store : String → Option TrackingParams)
      (req : WebhookRequest) (failureMsg : String),
      (createPOST fmtDate env timestamp random now fetchOutcome (.error failureMsg) body).response
        = (createPOST fmtDate env timestamp random now fetchOutcome (.ok ()) body).response ∧
      ((createPOST fmtDate env timestamp random now fetchOutcome (.error failureMsg) body).forwards ≠ [] →
        ∃ tid q qb ex,
          (createPOST fmtDate env timestamp random now fetchOutcome (.error failureMsg) body).response
            = .ok (generateOrderId timestamp random) tid q qb ex) ∧
      (webhookPOST stringify fmtDate dateParse secret store now (.error failureMsg) req).response
        = (webhookPOST stringify fmtDate dateParse secret store now (.ok ()) req).response ∧
      ((webhookPOST stringify fmtDate dateParse secret store now (.error failureMsg) req).forwards ≠ [] →
        (webhookPOST stringify fmtDate dateParse secret store now (.error failureMsg) req).response
          = .ok200) := by
  intro fmtDate env timestamp random now fetchOutcome body stringify dateParse secret store req failureMsg
  refine ⟨rfl, ?_, rfl, ?_⟩
  · intro hne
    rcases createPOST_branches fmtDate env timestamp random now fetchOutcome (.error failureMsg) body with
      ⟨hf, _⟩ | ⟨c, its, t, _, _, _, _, hresp, _⟩
    · exact absurd hf hne
    · exact ⟨_, _, _, _, hresp⟩
  · intro hne
    revert hne
    simp only [webhookPOST]
    split
    · intro hne
      exact absurd rfl hne
    · intro _
      rfl

/-- Witness for C7: a concrete successful create and a concrete paid
webhook, both with a failing attribution send, still produce their success
responses. -/
theorem C7_attribution_failure_nonfatal_witness :
    (createPOST (fun _ => none) { trexpayToken := some "t", trexpaySecret := some "s" }
        "TS" "RD" 0
        (.httpResponse true 200 (some (.obj [("idTransaction", .str "TX"), ("qrcode", .str "QR")])))
        (.error "boom")
        { customer := some { name := some "N", email := some "E", cpf := some "1", phone := some "9" }
          items := some [{ id := none, name := "Item", price := 10, quantity := 1 }]
          total := some 10 }).forwards ≠ [] ∧
    (∃ tid q qb ex,
      (createPOST (fun _ => none) { trexpayToken := some "t", trexpaySecret := some "s" }
        "TS" "RD" 0
        (.httpResponse true 200 (some (.obj [("idTransaction", .str "TX"), ("qrcode", .str "QR")])))
        (.error "boom")
        { customer := some { name := some "N", email := some "E", cpf := some "1", phone := some "9" }
          items := some [{ id := none, name := "Item", price := 10, quantity := 1 }]
          total := some 10 }).response = .ok (generateOrderId "TS" "RD") tid q qb ex) ∧
    (webhookPOST (fun _ => "") (fun _ => none) (fun _ => 0) none (fun _ => none) 0 (.error "boom")
      { body := { event := "pix.received"
                  data := { idTransaction := "TXW", status := "paid", amount := 10 } } }).forwards ≠ [] ∧
    (webhookPOST (fun _ => "") (fun _ => none) (fun _ => 0) none (fun _ => none) 0 (.error "boom")
      { body := { event := "pix.received"
                  data := { idTransaction := "TXW", status := "paid", amount := 10 } } }).response
      = .ok200 :=
  have h := C7_attribution_failure_nonfatal (fun _ => none)
    { trexpayToken := some "t", trexpaySecret := some "s" } "TS" "RD" 0
    (.httpResponse true 200 (some (.obj [("idTransaction", .str "TX"), ("qrcode", .str "QR")])))
    { customer := some { name := some "N", email := some "E", cpf := some "1", phone := some "9" }
      items := some [{ id := none, name := "Item", price := 10, quantity := 1 }]
      total := some 10 }
    (fun _ => "") (fun _ => 0) none (fun _ => none)
    { body := { event := "pix.received"
                data := { idTransaction := "TXW", status := "paid", amount := 10 } } }
    "boom"
  have hcf : (createPOST (fun _ => none) { trexpayToken := some "t", trexpaySecret := some "s" }
      "TS" "RD" 0
      (.httpResponse true 200 (some (.obj [("idTransaction", .str "TX"), ("qrcode", .str "QR")])))
      (.error "boom")
      { customer := some { name := some "N", email := some "E", cpf := some "1", phone := some "9" }
        items := some [{ id := none, name := "Item", price := 10, quantity := 1 }]
        total := some 10 }).forwards ≠ [] := fun hh => List.cons_ne_nil _ _ hh
  have hwf : (webhookPOST (fun _ => "") (fun _ => none) (fun _ => 0) none (fun _ => none) 0
      (.error "boom")
      { body := { event := "pix.received"
                  data := { idTransaction := "TXW", status := "paid", amount := 10 } } }).forwards
      ≠ [] := fun hh => List.cons_ne_nil _ _ hh
  ⟨hcf, h.2.1 hcf, hwf, h.2.2.2 hwf⟩

/-- C8: the minor-unit conversion is half-up rounding of `value × 100`
(`toCents 19.9 = 1990`, `toCents 0.005 = 1`), and each monetary amount is
converted exactly once on its way to the attribution service: the webhook
forward's line item and commission fields are `toCents` of the raw webhook
amount, and the create forward's fields are `toCents` of the raw request
total and item prices. -/
theorem C8_minor_unit_conversion :
    toCents (199 / 10) = 1990 ∧
    toCents (1 / 200) = 1 ∧
    (∀ v : ℚ, toCents v = ⌊v * 100 + 1 / 2⌋) ∧
    (∀ (stringify : WebhookBody → String) (fmtDate : Int → Option String)
      (dateParse : String → Int) (secret : Option String)
      (store : String → Option TrackingParams) (now : Int)
      (utmfyOutcome : Except String Unit) (req : WebhookRequest)
      (o : UtmfyOrderRequest),
      o ∈ (webhookPOST stringify fmtDate dateParse secret store now utmfyOutcome req).forwards →
      o.products.map (·.priceInCents) = [toCents req.body.data.amount] ∧
      o.commission.totalPriceInCents = toCents req.body.data.amount ∧
      o.commission.gatewayFeeInCents = 0 ∧
      o.commission.userCommissionInCents = toCents req.body.data.amount) ∧
    (∀ (fmtDate : Int → Option String) (env : CreateEnv) (timestamp random : String)
      (now : Int) (fetchOutcome : FetchOutcome) (utmfyOutcome : Except String Unit)
      (body : CreateBody) (total : ℚ) (items : List CreateItem) (o : UtmfyOrderRequest),
      body.total = some total → body.items = some items →
      o ∈ (createPOST fmtDate env timestamp random now fetchOutcome utmfyOutcome body).forwards →
      o.commission.totalPriceInCents = toCents total ∧
      o.commission.gatewayFeeInCents = 0 ∧
      o.commission.userCommissionInCents = toCents total ∧
      o.products.map (·.priceInCents) = items.map (fun item => toCents item.price)) := by
  refine ⟨by norm_num [toCents, jsMathRound], by norm_num [toCents, jsMathRound],
    fun v => rfl, ?_, ?_⟩
  · intro stringify fmtDate dateParse secret store now utmfyOutcome req o hmem
    revert hmem
    simp only [webhookPOST, processPixInWebhook]
    split
    · intro hmem
      exact absurd hmem (List.not_mem_nil o)
    · by_cases he : (req.body.event == "pix.received") = true
      · rw [if_pos he]
        by_cases hst : (req.body.data.status == "paid") = true
        · rw [if_pos hst]
          intro hmem
          have ho := List.mem_singleton.mp hmem
          subst ho
          exact ⟨rfl, rfl, rfl, rfl⟩
        · rw [if_neg hst]
          intro hmem
          exact absurd hmem (List.not_mem_nil o)
      · rw [if_neg he]
        intro hmem
        exact absurd hmem (List.not_mem_nil o)
  · intro fmtDate env timestamp random now fetchOutcome utmfyOutcome body total items o htot hit hmem
    rcases createPOST_branches fmtDate env timestamp random now fetchOutcome utmfyOutcome body with
      ⟨hf, _⟩ | ⟨c, its, t, hc, hi, ht, _, _, o', hfor, hst, hct, hcf, hcu, hprod⟩
    · rw [hf] at hmem
      exact absurd hmem (List.not_mem_nil o)
    · rw [hfor] at hmem
      obtain rfl := List.mem_singleton.mp hmem
      obtain rfl : total = t := by rw [htot] at ht; exact Option.some.inj ht
      obtain rfl : items = its := by rw [hit] at hi; exact Option.some.inj hi
      refine ⟨hct, hcf, hcu, ?_⟩
      rw [hprod, List.map_map]
      rfl

/-- Witness for C8: a concrete paid webhook with amount `19.9` forwards
`1990` cents in every monetary field. -/
theorem C8_minor_unit_conversion_witness :
    toCents (199 / 10) = 1990 ∧
    toCents (1 / 200) = 1 ∧
    ∃ o, (webhookPOST (fun _ => "") (fun _ => none) (fun _ => 0) none (fun _ => none) 0 (.ok ())
        { body := { event := "pix.received"
                    data := { idTransaction := "TX8", status := "paid", amount := 199 / 10 } } }).forwards
        = [o] ∧
      o.products.map (·.priceInCents) = [toCents (199 / 10)] ∧
      o.commission.totalPriceInCents = toCents (199 / 10) ∧
      o.commission.userCommissionInCents = toCents (199 / 10) := by
  refine ⟨C8_minor_unit_conversion.1, C8_minor_unit_conversion.2.1, _, rfl, ?_, ?_, ?_⟩
  · exact (C8_minor_unit_conversion.2.2.2.1 (fun _ => "") (fun _ => none) (fun _ => 0) none
      (fun _ => none) 0 (.ok ())
      { body := { event := "pix.received"
                  data := { idTransaction := "TX8", status := "paid", amount := 199 / 10 } } }
      _ (List.mem_singleton.mpr rfl)).1
  · exact (C8_minor_unit_conversion.2.2.2.1 (fun _ => "") (fun _ => none) (fun _ => 0) none
      (fun _ => none) 0 (.ok ())
      { body := { event := "pix.received"
                  data := { idTransaction := "TX8", status := "paid", amount := 199 / 10 } } }
      _ (List.mem_singleton.mpr rfl)).2.1
  · exact (C8_minor_unit_conversion.2.2.2.1 (fun _ => "") (fun _ => none) (fun _ => 0) none
      (fun _ => none) 0 (.ok ())
      { body := { event := "pix.received"
                  data := { idTransaction := "TX8", status := "paid", amount := 199 / 10 } } }
      _ (List.mem_singleton.mpr rfl)).2.2.2

/-- C9 (amended): when the gateway's success response carries no expiry
under any recognized spelling, the gateway client's success result has an
**absent** expiry (see the counterexample: the defaulting does not happen
there), and it is the create endpoint that fills in 30 minutes from now, so
the 200 response's `pix.expiresAt` is the rendering of `now + 30min ≥
now + 29min`. -/
theorem C9_expiry_default_thirty_minutes :
    ∀ (fmtDate : Int → Option String) (env : CreateEnv) (timestamp random : String)
      (now : Int) (fetchOutcome : FetchOutcome) (utmfyOutcome : Except String Unit)
      (body : CreateBody) (customer : CreateCustomer) (total : ℚ)
      (oid : String) (tid q qb ex : JsonVal),
      body.customer = some customer → body.total = some total →
      (createPOST fmtDate env timestamp random now fetchOutcome utmfyOutcome body).response
        = .ok oid tid q qb ex →
      jsTruthy (depositResultOf env customer total body.trackingParams fetchOutcome).1.expiresAt
        = false →
      ex = .str (isoOfMs (now + 30 * 60 * 1000)) ∧
      now + 30 * 60 * 1000 ≥ now + 29 * 60 * 1000 := by
  intro fmtDate env timestamp random now fetchOutcome utmfyOutcome body customer total oid tid q qb ex
    hcust htot hresp hfalsy
  rcases createPOST_branches fmtDate env timestamp random now fetchOutcome utmfyOutcome body with
    ⟨_, hne⟩ | ⟨c, its, t, hc, _, ht, _, hresp', _⟩
  · exact absurd hresp (hne oid tid q qb ex)
  · obtain rfl : customer = c := by rw [hcust] at hc; exact Option.some.inj hc
    obtain rfl : total = t := by rw [htot] at ht; exact Option.some.inj ht
    rw [hresp'] at hresp
    injection hresp with h1 h2 h3 h4 h5
    rw [jsOrD_falsy hfalsy] at h5
    exact ⟨h5.symm, by omega⟩

/-- C9 counterexample: on a successful creation whose gateway response has
no expiry field under any spelling, the gateway client's success result has
`expiresAt` **absent** — it does not default to 30 minutes from now there,
contrary to the claim's attribution of the defaulting to the success
result. -/
theorem C9_counterexample_result_expiry_absent :
    (createPixDeposit (some "t") (some "s")
      { amount := 10, customerName := "N", customerEmail := "E",
        customerDocument := "D", customerPhone := "P", postbackUrl := "U" }
      (.httpResponse true 200
        (some (.obj [("idTransaction", .str "TX"), ("qrcode", .str "QR")])))).1.success = true ∧
    (createPixDeposit (some "t") (some "s")
      { amount := 10, customerName := "N", customerEmail := "E",
        customerDocument := "D", customerPhone := "P", postbackUrl := "U" }
      (.httpResponse true 200
        (some (.obj [("idTransaction", .str "TX"), ("qrcode", .str "QR")])))).1.expiresAt = none :=
  ⟨rfl, rfl⟩

/-- Witness for C9: a concrete successful creation without a gateway expiry
produces `pix.expiresAt` rendering `now + 30min`. -/
theorem C9_expiry_default_thirty_minutes_witness :
    (createPOST (fun _ => none) { trexpayToken := some "t", trexpaySecret := some "s" }
        "TS" "RD" 0 (.httpResponse true 200 (some (.obj [("qrcode", .str "QR")]))) (.ok ())
        { customer := some { name := some "N", email := some "E", cpf := some "1", phone := some "9" }
          items := some [{ id := none, name := "Item", price := 10, quantity := 1 }]
          total := some 10 }).response
      = .ok "PED-TS-RD" (.str "PED-TS-RD") (.str "QR") (.str "")
          (.str (isoOfMs (0 + 30 * 60 * 1000))) ∧
    jsTruthy (depositResultOf { trexpayToken := some "t", trexpaySecret := some "s" }
        { name := some "N", email := some "E", cpf := some "1", phone := some "9" } 10 none
        (.httpResponse true 200 (some (.obj [("qrcode", .str "QR")])))).1.expiresAt = false ∧
    JsonVal.str (isoOfMs ((0 : Int) + 30 * 60 * 1000))
      = .str (isoOfMs ((0 : Int) + 30 * 60 * 1000)) ∧
    (0 : Int) + 30 * 60 * 1000 ≥ 0 + 29 * 60 * 1000 :=
  have h := C9_expiry_default_thirty_minutes (fun _ => none)
    { trexpayToken := some "t", trexpaySecret := some "s" } "TS" "RD" 0
    (.httpResponse true 200 (some (.obj [("qrcode", .str "QR")]))) (.ok ())
    { customer := some { name := some "N", email := some "E", cpf := some "1", phone := some "9" }
      items := some [{ id := none, name := "Item", price := 10, quantity := 1 }]
      total := some 10 }
    { name := some "N", email := some "E", cpf := some "1", phone := some "9" } 10
    "PED-TS-RD" (.str "PED-TS-RD") (.str "QR") (.str "")
    (.str (isoOfMs (0 + 30 * 60 * 1000)))
    rfl rfl rfl rfl
  ⟨rfl, rfl, h.1 ▸ rfl, h.2⟩

/-- C10: when the gateway reports success but no transaction id can be
extracted under any recognized spelling, the create endpoint's 200 response
carries the locally generated (never empty) order id as `transactionId`. -/
theorem C10_transaction_id_fallback :
    ∀ (fmtDate : Int → Option String) (env : CreateEnv) (timestamp random : String)
      (now : Int) (fetchOutcome : FetchOutcome) (utmfyOutcome : Except String Unit)
      (body : CreateBody) (customer : CreateCustomer) (total : ℚ)
      (oid : String) (tid q qb ex : JsonVal),
      body.customer = some customer → body.total = some total →
      (createPOST fmtDate env timestamp random now fetchOutcome utmfyOutcome body).response
        = .ok oid tid q qb ex →
      jsTruthy (depositResultOf env customer total body.trackingParams fetchOutcome).1.idTransaction
        = false →
      oid = generateOrderId timestamp random ∧
      tid = .str (generateOrderId timestamp random) ∧
      generateOrderId timestamp random ≠ "" := by
  intro fmtDate env timestamp random now fetchOutcome utmfyOutcome body customer total oid tid q qb ex
    hcust htot hresp hfalsy
  rcases createPOST_branches fmtDate env timestamp random now fetchOutcome utmfyOutcome body with
    ⟨_, hne⟩ | ⟨c, its, t, hc, _, ht, _, hresp', _⟩
  · exact absurd hresp (hne oid tid q qb ex)
  · obtain rfl : customer = c := by rw [hcust] at hc; exact Option.some.inj hc
    obtain rfl : total = t := by rw [htot] at ht; exact Option.some.inj ht
    rw [hresp'] at hresp
    injection hresp with h1 h2 h3 h4 h5
    rw [jsOrD_falsy hfalsy] at h2
    exact ⟨h1.symm, h2.symm, generateOrderId_ne_empty timestamp random⟩

/-- Witness for C10: a concrete successful creation whose gateway response
has no transaction id yields the local order id as `transactionId`. -/
theorem C10_transaction_id_fallback_witness :
    (createPOST (fun _ => none) { trexpayToken := some "t", trexpaySecret := some "s" }
        "TS" "RD" 0 (.httpResponse true 200 (some (.obj [("qrcode", .str "QR")]))) (.ok ())
        { customer := some { name := some "N", email := some "E", cpf := some "1", phone := some "9" }
          items := some [{ id := none, name := "Item", price := 10, quantity := 1 }]
          total := some 10 }).response
      = .ok "PED-TS-RD" (.str "PED-TS-RD") (.str "QR") (.str "")
          (.str (isoOfMs (0 + 30 * 60 * 1000))) ∧
    jsTruthy (depositResultOf { trexpayToken := some "t", trexpaySecret := some "s" }
        { name := some "N", email := some "E", cpf := some "1", phone := some "9" } 10 none
        (.httpResponse true 200 (some (.obj [("qrcode", .str "QR")])))).1.idTransaction = false ∧
    "PED-TS-RD" = generateOrderId "TS" "RD" ∧
    JsonVal.str "PED-TS-RD" = .str (generateOrderId "TS" "RD") ∧
    generateOrderId "TS" "RD" ≠ "" :=
  have h := C10_transaction_id_fallback (fun _ => none)
    { trexpayToken := some "t", trexpaySecret := some "s" } "TS" "RD" 0
    (.httpResponse true 200 (some (.obj [("qrcode", .str "QR")]))) (.ok ())
    { customer := some { name := some "N", email := some "E", cpf := some "1", phone := some "9" }
      items := some [{ id := none, name := "Item", price := 10, quantity := 1 }]
      total := some 10 }
    { name := some "N", email := some "E", cpf := some "1", phone := some "9" } 10
    "PED-TS-RD" (.str "PED-TS-RD") (.str "QR") (.str "")
    (.str (isoOfMs (0 + 30 * 60 * 1000)))
    rfl rfl rfl rfl
  ⟨rfl, rfl, h.1, h.2.1, h.2.2⟩

end Validado
